import Mathlib

/-!
Verification of the daily settlement engine of the postback repository.

The source has three trigger paths that share one settlement routine:
the in-process timer path (lib/scheduler.js), the platform cron path
(pages/api/cron/daily-postback.js) and the manual/forced admin paths
(pages/api/admin/*). Each path reads the aggregate cached total, picks a
representative clickid, performs one outbound GET, records the attempt via
logPostback, and clears the cache only on a confirmed success.

The store layer (lib/database.js: logConversion, logPostback,
getGlobalCachedTotal, clearAllCachedConversions) is not part of the given
sources; where its behaviour matters it is modelled from the spec and each
such definition is marked so in its doc comment. Everything else is a direct
shallow embedding of the JavaScript sources: monetary amounts are Int,
calendar dates are Nat, each fallible external call is driven by an outcome
recorded in a configuration value, and exceptions are an Except layer that
the top-level catch of each routine discharges.
-/

namespace Postback

/-- One pending conversion row of the cached_conversions table. -/
structure PendingRecord where
  clickid : String
  amount : Int
  createdAt : Nat
deriving DecidableEq

/-- One row of the conversion_logs table, as written by logConversion.
The day field models DATE(created_at). -/
structure AuditEntry where
  clickid : String
  action : String
  day : Nat
  message : String
  cachedAmount : Option Int := none
  totalSent : Option Int := none
deriving DecidableEq

/-- One row of the postback_history table, as written by logPostback. -/
structure SettlementAttempt where
  clickid : String
  amount : Int
  url : String
  success : Bool
  responseBody : String
  errorMessage : Option String
deriving DecidableEq

/-- Result object returned by a trigger-path invocation. JavaScript object
fields that a given return statement omits are modelled as none. -/
structure RunResult where
  success : Option Bool := none
  message : Option String := none
  totalAmount : Option Int := none
  clearedEntries : Option Nat := none
  clickidUsed : Option String := none
  error : Option String := none
  skipped : Option Bool := none
  reason : Option String := none
  nyTime : Option String := none
deriving DecidableEq

/-- Outcome of the single outbound fetch call: either a response with an
HTTP status and a body, or a rejection (transport error or timeout) with an
error message. -/
inductive FetchOutcome where
  | response (status : Nat) (body : String)
  | rejected (msg : String)
deriving DecidableEq

/-- The response.ok flag of the fetch API: status in the range 200 to 299. -/
def fetchSucceeds : FetchOutcome → Bool
  | FetchOutcome.response status _ => decide (200 ≤ status ∧ status ≤ 299)
  | FetchOutcome.rejected _ => false

/-- Body text captured on the success path; the failure path never reads it. -/
def fetchBody : FetchOutcome → String
  | FetchOutcome.response _ body => body
  | FetchOutcome.rejected _ => ""

/-- The error message produced on the failure path: the thrown HTTP-error
message for a non-ok response, the rejection message otherwise. -/
def fetchErrMsg : FetchOutcome → String
  | FetchOutcome.response status _ => "HTTP error! status: " ++ toString status
  | FetchOutcome.rejected m => m

/-- Environment of one engine invocation: the calendar day, the outcome the
external world gives to each fallible call, records arriving between the
notification and the clear, and whether the (swallowed) store writes of the
logging layer are failing. -/
structure Config where
  day : Nat
  nyTimeStr : String := ""
  loggingFault : Bool := false
  totalReadFault : Option String := none
  clickidQueryFault : Option String := none
  clearFault : Option String := none
  dedupQueryFault : Bool := false
  fetchOutcome : FetchOutcome
  arrivals : List PendingRecord := []
deriving DecidableEq

/-- Database state threaded through an invocation, plus instrumentation:
sends lists every outbound fetch performed (clickid, amount), okSends counts
the ones that came back ok, clears counts calls to clearAllCachedConversions. -/
structure St where
  pending : List PendingRecord := []
  log : List AuditEntry := []
  attempts : List SettlementAttempt := []
  sends : List (String × Int) := []
  okSends : Nat := 0
  clears : Nat := 0
deriving DecidableEq

/-- Modelled from the spec: logConversion of lib/database.js (absent from the
sources) appends one AuditEntry; per section 7 a logging failure is swallowed
inside the store layer (the write is lost, nothing is thrown). -/
def logConversion (cfg : Config) (st : St) (en : AuditEntry) : St :=
  if cfg.loggingFault then st else { st with log := st.log ++ [en] }

/-- Modelled from the spec: logPostback of lib/database.js (absent from the
sources) appends one SettlementAttempt; per sections 4.3 and 7 it never
throws, a logging failure is swallowed inside the store layer. -/
def logPostback (cfg : Config) (st : St) (a : SettlementAttempt) : St :=
  if cfg.loggingFault then st else { st with attempts := st.attempts ++ [a] }

/-- Modelled from the spec: getGlobalCachedTotal of lib/database.js (absent
from the sources) returns the sum of all pending amounts, 0 when none. -/
def getGlobalCachedTotal (st : St) : Int :=
  (st.pending.map (fun r => r.amount)).sum

/-- Meaning of the SQL query SELECT clickid FROM cached_conversions ORDER BY
created_at DESC LIMIT 1: some row with maximal createdAt, none on an empty
table. On ties the earlier list element is kept (SQL leaves this free). -/
def mostRecent : List PendingRecord → Option PendingRecord
  | [] => none
  | r :: rs =>
    match mostRecent rs with
    | none => some r
    | some b => if r.createdAt < b.createdAt then some b else some r

/-- The representative clickid: clickidResult[0]?.clickid || sentinel. The
JavaScript fallback also fires on an empty clickid string, which is falsy. -/
def primaryClickid (sentinel : String) (pending : List PendingRecord) : String :=
  match mostRecent pending with
  | none => sentinel
  | some r => if r.clickid = "" then sentinel else r.clickid

/-- Upper-case hexadecimal digit for a value below 16. -/
def hexDigit (n : Nat) : Char :=
  if n < 10 then Char.ofNat (48 + n) else Char.ofNat (55 + n)

/-- Characters the encodeURIComponent builtin leaves unescaped. -/
def isUnreservedChar (c : Char) : Bool :=
  c.isAlphanum || c = '-' || c = '_' || c = '.' || c = '!' || c = '~' ||
    c = '*' || c = Char.ofNat 39 || c = '(' || c = ')'

/-- Percent-encoding of one code point (exact for the ASCII range, which is
the only range the identifiers of this system use). -/
def percentEncodeChar (c : Char) : String :=
  String.mk ['%', hexDigit (c.toNat / 16 % 16), hexDigit (c.toNat % 16)]

/-- The encodeURIComponent builtin of JavaScript, over the ASCII range. -/
def encodeURIComponent (s : String) : String :=
  String.join (s.toList.map
    (fun c => if isUnreservedChar c then String.mk [c] else percentEncodeChar c))

/-- The outbound settlement URL built by every trigger path. -/
def redtrackUrl (pc : String) (total : Int) : String :=
  "https://clks.trackthisclicks.com/postback?clickid=" ++ encodeURIComponent pc ++
    "&sum=" ++ encodeURIComponent (toString total)

namespace Scheduler

/-- Body of executeDailyPostback of lib/scheduler.js, the part inside the
top-level try. An Except.error value is an exception travelling to the
top-level catch; the paired state keeps the side effects already performed. -/
def executeDailyPostbackBody (cfg : Config) (st0 : St) : Except String RunResult × St :=
  match cfg.totalReadFault with
  | some e => (Except.error e, st0)
  | none =>
    let totalCached := getGlobalCachedTotal st0
    if totalCached ≤ 0 then
      let st1 := logConversion cfg st0
        { clickid := "auto-scheduler", action := "no_cache_to_process", day := cfg.day,
          message := "No cached conversions found (total: $" ++ toString totalCached ++
            "). Daily postback completed with no action needed." }
      (Except.ok { success := some true, message := some "No cached conversions to process",
                   totalAmount := some totalCached }, st1)
    else
      match cfg.clickidQueryFault with
      | some e => (Except.error e, st0)
      | none =>
        let pc := primaryClickid "auto-scheduler" st0.pending
        let st1 := logConversion cfg st0
          { clickid := pc, action := "daily_postback_preparing", day := cfg.day,
            cachedAmount := some totalCached, totalSent := some totalCached,
            message := "Preparing automated daily postback. Total cached: $" ++
              toString totalCached ++ ", using clickid: " ++ pc }
        let url := redtrackUrl pc totalCached
        let st2 := { st1 with sends := st1.sends ++ [(pc, totalCached)] }
        let ok := fetchSucceeds cfg.fetchOutcome
        let st3 :=
          if ok then
            logConversion cfg { st2 with okSends := st2.okSends + 1 }
              { clickid := pc, action := "daily_postback_success", day := cfg.day,
                cachedAmount := some totalCached, totalSent := some totalCached,
                message := "Automated daily postback successful. Amount: $" ++
                  toString totalCached ++ ", Response: " ++ fetchBody cfg.fetchOutcome }
          else
            logConversion cfg st2
              { clickid := pc, action := "daily_postback_failed", day := cfg.day,
                cachedAmount := some totalCached, totalSent := some totalCached,
                message := "Automated daily postback failed. Amount: $" ++
                  toString totalCached ++ ", Error: " ++ fetchErrMsg cfg.fetchOutcome }
        let st4 := logPostback cfg st3
          { clickid := pc, amount := totalCached, url := url, success := ok,
            responseBody := if ok then fetchBody cfg.fetchOutcome else "",
            errorMessage := if ok then none else some (fetchErrMsg cfg.fetchOutcome) }
        if ok then
          let st5 := { st4 with pending := st4.pending ++ cfg.arrivals }
          match cfg.clearFault with
          | some e => (Except.error e, st5)
          | none =>
            let clearedRows := st5.pending.length
            let st6 := { st5 with pending := [], clears := st5.clears + 1 }
            let st7 := logConversion cfg st6
              { clickid := pc, action := "daily_cache_cleared", day := cfg.day,
                message := "Automated daily postback completed successfully. Cache cleared: " ++
                  toString clearedRows ++ " entries. Total sent: $" ++ toString totalCached }
            (Except.ok { success := some true,
                         message := some "Daily postback sent successfully and cache cleared",
                         totalAmount := some totalCached, clearedEntries := some clearedRows,
                         clickidUsed := some pc }, st7)
        else
          let st5 := logConversion cfg st4
            { clickid := pc, action := "daily_postback_failed_final", day := cfg.day,
              message := "Automated daily postback failed. Cache NOT cleared. Amount: $" ++
                toString totalCached ++ ", Error: " ++ fetchErrMsg cfg.fetchOutcome }
          (Except.ok { success := some false,
                       message := some "Daily postback failed - cache not cleared",
                       totalAmount := some totalCached,
                       error := some (fetchErrMsg cfg.fetchOutcome),
                       clickidUsed := some pc }, st5)

/-- executeDailyPostback of lib/scheduler.js: the body wrapped in the
top-level catch, which logs a daily_execution_error entry and returns a
structured failure result. -/
def executeDailyPostback (cfg : Config) (st : St) : RunResult × St :=
  match executeDailyPostbackBody cfg st with
  | (Except.ok r, st1) => (r, st1)
  | (Except.error e, st1) =>
    let st2 := logConversion cfg st1
      { clickid := "auto-scheduler", action := "daily_execution_error", day := cfg.day,
        message := "Daily postback execution error: " ++ e }
    ({ success := some false, error := some e,
       message := some "Daily postback execution error" }, st2)

/-- Wall-clock inputs of one timer tick: the New York date string and the
New York hour and minute. -/
structure TimerInput where
  dateString : String
  hour : Nat
  minute : Nat
deriving DecidableEq

/-- The padStart(2, "0") applied to the minute in the skip message. -/
def padMinute (m : Nat) : String :=
  if m < 10 then "0" ++ toString m else toString m

/-- checkAndRunDailyPostback of lib/scheduler.js. Returns the result, the new
value of the module-level lastDailyRun marker, and the new store state. The
top-level catch of the source is unreachable here because the modelled
logConversion never throws and the engine returns a total result. -/
def checkAndRunDailyPostback (ti : TimerInput) (cfg : Config)
    (lastDailyRun : Option String) (st : St) : RunResult × Option String × St :=
  if lastDailyRun = some ti.dateString then
    ({ skipped := some true, reason := some "Already ran today" }, lastDailyRun, st)
  else if ti.hour = 23 ∧ ti.minute = 59 then
    let lastRun := some ti.dateString
    let st1 := logConversion cfg st
      { clickid := "auto-scheduler", action := "daily_auto_trigger", day := cfg.day,
        message := "Auto-triggered daily postback at " ++ ti.dateString ++ " NY time" }
    let out := executeDailyPostback cfg st1
    (out.1, lastRun, out.2)
  else
    ({ skipped := some true,
       reason := some ("Not in time window. Current NY time: " ++ toString ti.hour ++
         ":" ++ padMinute ti.minute) }, lastDailyRun, st)

end Scheduler

namespace Cron

/-- Meaning of the dedup SQL query of pages/api/cron/daily-postback.js:
COUNT(*) of conversion_logs rows whose action is cron_postback_success or
cron_cache_cleared and whose date is today. -/
def cronSuccessCount (l : List AuditEntry) (d : Nat) : Nat :=
  l.countP (fun en =>
    decide ((en.action = "cron_postback_success" ∨ en.action = "cron_cache_cleared") ∧
      en.day = d))

/-- checkIfAlreadyRanToday of pages/api/cron/daily-postback.js: true when the
count query succeeds and finds at least one row; false when the query throws
(the catch returns false to allow the run). -/
def checkIfAlreadyRanToday (cfg : Config) (st : St) : Bool :=
  if cfg.dedupQueryFault then false
  else decide (0 < cronSuccessCount st.log cfg.day)

/-- Body of executeDailyPostback of pages/api/cron/daily-postback.js: the
same settlement sequence as the scheduler engine, preceded by the persisted
duplicate-run check and using the cron action tags and sentinel. -/
def executeDailyPostbackBody (cfg : Config) (st0 : St) : Except String RunResult × St :=
  if checkIfAlreadyRanToday cfg st0 then
    let st1 := logConversion cfg st0
      { clickid := "vercel-cron", action := "cron_duplicate_prevented", day := cfg.day,
        message := "Cron job skipped - already processed today" }
    (Except.ok { success := some true,
                 message := some "Already processed today - duplicate prevented",
                 skipped := some true }, st1)
  else
    match cfg.totalReadFault with
    | some e => (Except.error e, st0)
    | none =>
      let totalCached := getGlobalCachedTotal st0
      if totalCached ≤ 0 then
        let st1 := logConversion cfg st0
          { clickid := "vercel-cron", action := "cron_no_cache", day := cfg.day,
            message := "Cron job completed - no cached conversions to process (total: $" ++
              toString totalCached ++ ")" }
        (Except.ok { success := some true, message := some "No cached conversions to process",
                     totalAmount := some totalCached }, st1)
      else
        match cfg.clickidQueryFault with
        | some e => (Except.error e, st0)
        | none =>
          let pc := primaryClickid "vercel-cron" st0.pending
          let st1 := logConversion cfg st0
            { clickid := pc, action := "cron_postback_preparing", day := cfg.day,
              cachedAmount := some totalCached, totalSent := some totalCached,
              message := "Vercel Cron preparing daily postback. NY Time: " ++ cfg.nyTimeStr ++
                ", Total cached: $" ++ toString totalCached ++ ", using clickid: " ++ pc }
          let url := redtrackUrl pc totalCached
          let st2 := { st1 with sends := st1.sends ++ [(pc, totalCached)] }
          let ok := fetchSucceeds cfg.fetchOutcome
          let st3 :=
            if ok then
              logConversion cfg { st2 with okSends := st2.okSends + 1 }
                { clickid := pc, action := "cron_postback_success", day := cfg.day,
                  cachedAmount := some totalCached, totalSent := some totalCached,
                  message := "Vercel Cron postback successful. Amount: $" ++
                    toString totalCached ++ ", Response: " ++ fetchBody cfg.fetchOutcome }
            else
              logConversion cfg st2
                { clickid := pc, action := "cron_postback_failed", day := cfg.day,
                  cachedAmount := some totalCached, totalSent := some totalCached,
                  message := "Vercel Cron postback failed. Amount: $" ++
                    toString totalCached ++ ", Error: " ++ fetchErrMsg cfg.fetchOutcome }
          let st4 := logPostback cfg st3
            { clickid := pc, amount := totalCached, url := url, success := ok,
              responseBody := if ok then fetchBody cfg.fetchOutcome else "",
              errorMessage := if ok then none else some (fetchErrMsg cfg.fetchOutcome) }
          if ok then
            let st5 := { st4 with pending := st4.pending ++ cfg.arrivals }
            match cfg.clearFault with
            | some e => (Except.error e, st5)
            | none =>
              let clearedRows := st5.pending.length
              let st6 := { st5 with pending := [], clears := st5.clears + 1 }
              let st7 := logConversion cfg st6
                { clickid := pc, action := "cron_cache_cleared", day := cfg.day,
                  message := "Vercel Cron daily postback completed successfully. Cache cleared: " ++
                    toString clearedRows ++ " entries. Total sent: $" ++ toString totalCached }
              (Except.ok { success := some true,
                           message := some "Daily postback sent successfully and cache cleared",
                           totalAmount := some totalCached, clearedEntries := some clearedRows,
                           clickidUsed := some pc, nyTime := some cfg.nyTimeStr }, st7)
          else
            let st5 := logConversion cfg st4
              { clickid := pc, action := "cron_postback_failed_final", day := cfg.day,
                message := "Vercel Cron daily postback failed. Cache NOT cleared. Amount: $" ++
                  toString totalCached ++ ", Error: " ++ fetchErrMsg cfg.fetchOutcome }
            (Except.ok { success := some false,
                         message := some "Daily postback failed - cache not cleared",
                         totalAmount := some totalCached,
                         error := some (fetchErrMsg cfg.fetchOutcome),
                         clickidUsed := some pc, nyTime := some cfg.nyTimeStr }, st5)

/-- executeDailyPostback of pages/api/cron/daily-postback.js: the body
wrapped in the top-level catch, which logs a cron_execution_error entry and
returns a structured failure result. -/
def executeDailyPostback (cfg : Config) (st : St) : RunResult × St :=
  match executeDailyPostbackBody cfg st with
  | (Except.ok r, st1) => (r, st1)
  | (Except.error e, st1) =>
    let st2 := logConversion cfg st1
      { clickid := "vercel-cron", action := "cron_execution_error", day := cfg.day,
        message := "Vercel Cron execution error: " ++ e }
    ({ success := some false, error := some e,
       message := some "Daily postback execution error" }, st2)

end Cron

namespace Manual

/-- Body of executeDailyPostback of pages/api/admin/manual-daily-postback.js:
the same settlement sequence with the manual action tags, the manual-admin
log actor, the manual-trigger clickid sentinel, and no duplicate-run check;
unlike the other engines, the failure branch returns without writing a
failed-final audit entry. -/
def executeDailyPostbackBody (cfg : Config) (st0 : St) : Except String RunResult × St :=
  match cfg.totalReadFault with
  | some e => (Except.error e, st0)
  | none =>
    let totalCached := getGlobalCachedTotal st0
    if totalCached ≤ 0 then
      let st1 := logConversion cfg st0
        { clickid := "manual-admin", action := "manual_no_cache", day := cfg.day,
          message := "Manual trigger: No cached conversions found (total: $" ++
            toString totalCached ++ ")" }
      (Except.ok { success := some true, message := some "No cached conversions to process",
                   totalAmount := some totalCached }, st1)
    else
      match cfg.clickidQueryFault with
      | some e => (Except.error e, st0)
      | none =>
        let pc := primaryClickid "manual-trigger" st0.pending
        let st1 := logConversion cfg st0
          { clickid := pc, action := "manual_postback_preparing", day := cfg.day,
            cachedAmount := some totalCached, totalSent := some totalCached,
            message := "Manual daily postback triggered by admin. Total cached: $" ++
              toString totalCached ++ ", using clickid: " ++ pc }
        let url := redtrackUrl pc totalCached
        let st2 := { st1 with sends := st1.sends ++ [(pc, totalCached)] }
        let ok := fetchSucceeds cfg.fetchOutcome
        let st3 :=
          if ok then
            logConversion cfg { st2 with okSends := st2.okSends + 1 }
              { clickid := pc, action := "manual_postback_success", day := cfg.day,
                cachedAmount := some totalCached, totalSent := some totalCached,
                message := "Manual daily postback successful. Amount: $" ++
                  toString totalCached ++ ", Response: " ++ fetchBody cfg.fetchOutcome }
          else
            logConversion cfg st2
              { clickid := pc, action := "manual_postback_failed", day := cfg.day,
                cachedAmount := some totalCached, totalSent := some totalCached,
                message := "Manual daily postback failed. Amount: $" ++
                  toString totalCached ++ ", Error: " ++ fetchErrMsg cfg.fetchOutcome }
        let st4 := logPostback cfg st3
          { clickid := pc, amount := totalCached, url := url, success := ok,
            responseBody := if ok then fetchBody cfg.fetchOutcome else "",
            errorMessage := if ok then none else some (fetchErrMsg cfg.fetchOutcome) }
        if ok then
          let st5 := { st4 with pending := st4.pending ++ cfg.arrivals }
          match cfg.clearFault with
          | some e => (Except.error e, st5)
          | none =>
            let clearedRows := st5.pending.length
            let st6 := { st5 with pending := [], clears := st5.clears + 1 }
            let st7 := logConversion cfg st6
              { clickid := pc, action := "manual_cache_cleared", day := cfg.day,
                message := "Manual daily postback completed successfully. Cache cleared: " ++
                  toString clearedRows ++ " entries. Total sent: $" ++ toString totalCached }
            (Except.ok { success := some true,
                         message := some "Manual daily postback sent successfully and cache cleared",
                         totalAmount := some totalCached, clearedEntries := some clearedRows,
                         clickidUsed := some pc }, st7)
        else
          (Except.ok { success := some false,
                       message := some "Manual daily postback failed - cache not cleared",
                       totalAmount := some totalCached,
                       error := some (fetchErrMsg cfg.fetchOutcome),
                       clickidUsed := some pc }, st4)

/-- executeDailyPostback of pages/api/admin/manual-daily-postback.js: the
body wrapped in the top-level catch, which logs a manual_execution_error
entry and returns a structured failure result. -/
def executeDailyPostback (cfg : Config) (st : St) : RunResult × St :=
  match executeDailyPostbackBody cfg st with
  | (Except.ok r, st1) => (r, st1)
  | (Except.error e, st1) =>
    let st2 := logConversion cfg st1
      { clickid := "manual-admin", action := "manual_execution_error", day := cfg.day,
        message := "Manual daily postback execution error: " ++ e }
    ({ success := some false, error := some e,
       message := some "Manual daily postback execution error" }, st2)

end Manual

namespace Force

/-- Body of executeForcedDailyPostback of pages/api/admin/force-daily-check.js:
the same settlement sequence as the cron engine but with the force action
tags, the admin-force-check log actor, the force-check clickid sentinel, and
no duplicate-run check (the forced path deliberately bypasses it). -/
def executeForcedDailyPostbackBody (cfg : Config) (st0 : St) :
    Except String RunResult × St :=
  match cfg.totalReadFault with
  | some e => (Except.error e, st0)
  | none =>
    let totalCached := getGlobalCachedTotal st0
    if totalCached ≤ 0 then
      let st1 := logConversion cfg st0
        { clickid := "admin-force-check", action := "force_no_cache", day := cfg.day,
          message := "Force check completed - no cached conversions to process (total: $" ++
            toString totalCached ++ ")" }
      (Except.ok { success := some true, message := some "No cached conversions to process",
                   totalAmount := some totalCached }, st1)
    else
      match cfg.clickidQueryFault with
      | some e => (Except.error e, st0)
      | none =>
        let pc := primaryClickid "force-check" st0.pending
        let st1 := logConversion cfg st0
          { clickid := pc, action := "force_postback_preparing", day := cfg.day,
            cachedAmount := some totalCached, totalSent := some totalCached,
            message := "Force check preparing daily postback. NY Time: " ++ cfg.nyTimeStr ++
              ", Total cached: $" ++ toString totalCached ++ ", using clickid: " ++ pc }
        let url := redtrackUrl pc totalCached
        let st2 := { st1 with sends := st1.sends ++ [(pc, totalCached)] }
        let ok := fetchSucceeds cfg.fetchOutcome
        let st3 :=
          if ok then
            logConversion cfg { st2 with okSends := st2.okSends + 1 }
              { clickid := pc, action := "force_postback_success", day := cfg.day,
                cachedAmount := some totalCached, totalSent := some totalCached,
                message := "Force check postback successful. Amount: $" ++
                  toString totalCached ++ ", Response: " ++ fetchBody cfg.fetchOutcome }
          else
            logConversion cfg st2
              { clickid := pc, action := "force_postback_failed", day := cfg.day,
                cachedAmount := some totalCached, totalSent := some totalCached,
                message := "Force check postback failed. Amount: $" ++
                  toString totalCached ++ ", Error: " ++ fetchErrMsg cfg.fetchOutcome }
        let st4 := logPostback cfg st3
          { clickid := pc, amount := totalCached, url := url, success := ok,
            responseBody := if ok then fetchBody cfg.fetchOutcome else "",
            errorMessage := if ok then none else some (fetchErrMsg cfg.fetchOutcome) }
        if ok then
          let st5 := { st4 with pending := st4.pending ++ cfg.arrivals }
          match cfg.clearFault with
          | some e => (Except.error e, st5)
          | none =>
            let clearedRows := st5.pending.length
            let st6 := { st5 with pending := [], clears := st5.clears + 1 }
            let st7 := logConversion cfg st6
              { clickid := pc, action := "force_cache_cleared", day := cfg.day,
                message := "Force check completed successfully. Cache cleared: " ++
                  toString clearedRows ++ " entries. Total sent: $" ++ toString totalCached }
            (Except.ok { success := some true,
                         message := some "Force daily check: postback sent successfully and cache cleared",
                         totalAmount := some totalCached, clearedEntries := some clearedRows,
                         clickidUsed := some pc, nyTime := some cfg.nyTimeStr }, st7)
        else
          let st5 := logConversion cfg st4
            { clickid := pc, action := "force_postback_failed_final", day := cfg.day,
              message := "Force check postback failed. Cache NOT cleared. Amount: $" ++
                toString totalCached ++ ", Error: " ++ fetchErrMsg cfg.fetchOutcome }
          (Except.ok { success := some false,
                       message := some "Force daily check: postback failed - cache not cleared",
                       totalAmount := some totalCached,
                       error := some (fetchErrMsg cfg.fetchOutcome),
                       clickidUsed := some pc, nyTime := some cfg.nyTimeStr }, st5)

/-- executeForcedDailyPostback of pages/api/admin/force-daily-check.js: the
body wrapped in the top-level catch, which logs a force_execution_error entry
and returns a structured failure result. -/
def executeForcedDailyPostback (cfg : Config) (st : St) : RunResult × St :=
  match executeForcedDailyPostbackBody cfg st with
  | (Except.ok r, st1) => (r, st1)
  | (Except.error e, st1) =>
    let st2 := logConversion cfg st1
      { clickid := "admin-force-check", action := "force_execution_error", day := cfg.day,
        message := "Force check execution error: " ++ e }
    ({ success := some false, error := some e,
       message := some "Force daily check execution error" }, st2)

end Force

/-! Projection lemmas: the logging layer touches only the log and attempts
columns of the state. -/

@[simp] theorem logConversion_pending (cfg : Config) (st : St) (en : AuditEntry) :
    (logConversion cfg st en).pending = st.pending := by
  unfold logConversion; split <;> rfl

@[simp] theorem logConversion_attempts (cfg : Config) (st : St) (en : AuditEntry) :
    (logConversion cfg st en).attempts = st.attempts := by
  unfold logConversion; split <;> rfl

@[simp] theorem logConversion_sends (cfg : Config) (st : St) (en : AuditEntry) :
    (logConversion cfg st en).sends = st.sends := by
  unfold logConversion; split <;> rfl

@[simp] theorem logConversion_okSends (cfg : Config) (st : St) (en : AuditEntry) :
    (logConversion cfg st en).okSends = st.okSends := by
  unfold logConversion; split <;> rfl

@[simp] theorem logConversion_clears (cfg : Config) (st : St) (en : AuditEntry) :
    (logConversion cfg st en).clears = st.clears := by
  unfold logConversion; split <;> rfl

@[simp] theorem logPostback_pending (cfg : Config) (st : St) (a : SettlementAttempt) :
    (logPostback cfg st a).pending = st.pending := by
  unfold logPostback; split <;> rfl

@[simp] theorem logPostback_log (cfg : Config) (st : St) (a : SettlementAttempt) :
    (logPostback cfg st a).log = st.log := by
  unfold logPostback; split <;> rfl

@[simp] theorem logPostback_sends (cfg : Config) (st : St) (a : SettlementAttempt) :
    (logPostback cfg st a).sends = st.sends := by
  unfold logPostback; split <;> rfl

@[simp] theorem logPostback_okSends (cfg : Config) (st : St) (a : SettlementAttempt) :
    (logPostback cfg st a).okSends = st.okSends := by
  unfold logPostback; split <;> rfl

@[simp] theorem logPostback_clears (cfg : Config) (st : St) (a : SettlementAttempt) :
    (logPostback cfg st a).clears = st.clears := by
  unfold logPostback; split <;> rfl

/-- With the logging store healthy, logConversion appends its entry. -/
theorem logConversion_log_ok (cfg : Config) (st : St) (en : AuditEntry)
    (h : cfg.loggingFault = false) :
    (logConversion cfg st en).log = st.log ++ [en] := by
  unfold logConversion; rw [h]; rfl

/-- With the logging store healthy, logPostback appends its attempt. -/
theorem logPostback_attempts_ok (cfg : Config) (st : St) (a : SettlementAttempt)
    (h : cfg.loggingFault = false) :
    (logPostback cfg st a).attempts = st.attempts ++ [a] := by
  unfold logPostback; rw [h]; rfl

/-- C4: whenever the aggregate total read from the store is at most 0
(including exactly 0) and the read itself does not throw, the scheduler
engine returns success true with message No cached conversions to process and
the read total, performs no outbound fetch, and records no SettlementAttempt. -/
theorem scheduler_no_op_on_nonpositive_total (cfg : Config) (st : St)
    (h1 : cfg.totalReadFault = none)
    (h2 : getGlobalCachedTotal st ≤ 0) :
    (Scheduler.executeDailyPostback cfg st).1 =
      { success := some true, message := some "No cached conversions to process",
        totalAmount := some (getGlobalCachedTotal st) } ∧
    (Scheduler.executeDailyPostback cfg st).2.sends = st.sends ∧
    (Scheduler.executeDailyPostback cfg st).2.attempts = st.attempts := by
  simp [Scheduler.executeDailyPostback, Scheduler.executeDailyPostbackBody, h1, h2]

/-- Closed witness for the C4 theorem at a concrete empty store. -/
theorem scheduler_no_op_on_nonpositive_total_witness :
    (Scheduler.executeDailyPostback
        { day := 0, fetchOutcome := FetchOutcome.response 200 "OK" } {}).1 =
      { success := some true, message := some "No cached conversions to process",
        totalAmount := some (getGlobalCachedTotal {}) } ∧
    (Scheduler.executeDailyPostback
        { day := 0, fetchOutcome := FetchOutcome.response 200 "OK" } {}).2.sends =
      St.sends {} ∧
    (Scheduler.executeDailyPostback
        { day := 0, fetchOutcome := FetchOutcome.response 200 "OK" } {}).2.attempts =
      St.attempts {} :=
  scheduler_no_op_on_nonpositive_total _ _ rfl (by decide)

/-- C1: whenever the external notification fails (a rejected fetch or a
non-success HTTP status), the scheduler engine deletes no PendingRecord and
performs no clear, records exactly one SettlementAttempt with success false
via logPostback, and returns success false carrying the error message. The
store reads are assumed healthy (the claim is about notification failure) and
the logging store healthy so that the attempt row is actually persisted. -/
theorem scheduler_failed_notification_retains_pending (cfg : Config) (st : St)
    (h1 : cfg.totalReadFault = none)
    (h2 : 0 < getGlobalCachedTotal st)
    (h3 : cfg.clickidQueryFault = none)
    (h4 : fetchSucceeds cfg.fetchOutcome = false)
    (h5 : cfg.loggingFault = false) :
    (Scheduler.executeDailyPostback cfg st).2.pending = st.pending ∧
    (Scheduler.executeDailyPostback cfg st).2.clears = st.clears ∧
    (Scheduler.executeDailyPostback cfg st).2.attempts = st.attempts ++
      [{ clickid := primaryClickid "auto-scheduler" st.pending,
         amount := getGlobalCachedTotal st,
         url := redtrackUrl (primaryClickid "auto-scheduler" st.pending) (getGlobalCachedTotal st),
         success := false, responseBody := "",
         errorMessage := some (fetchErrMsg cfg.fetchOutcome) }] ∧
    (Scheduler.executeDailyPostback cfg st).1.success = some false ∧
    (Scheduler.executeDailyPostback cfg st).1.error = some (fetchErrMsg cfg.fetchOutcome) := by
  simp [Scheduler.executeDailyPostback, Scheduler.executeDailyPostbackBody, h1, h3, h4,
    not_le.mpr h2, logPostback_attempts_ok _ _ _ h5]

/-- Closed witness for the C1 theorem: one pending record, rejected fetch. -/
theorem scheduler_failed_notification_retains_pending_witness :
    (Scheduler.executeDailyPostback
        { day := 0, fetchOutcome := FetchOutcome.rejected "network timeout" }
        { pending := [{ clickid := "abc123", amount := 1000, createdAt := 3 }] }).2.pending =
      [{ clickid := "abc123", amount := 1000, createdAt := 3 }] ∧
    (Scheduler.executeDailyPostback
        { day := 0, fetchOutcome := FetchOutcome.rejected "network timeout" }
        { pending := [{ clickid := "abc123", amount := 1000, createdAt := 3 }] }).2.clears =
      St.clears { pending := [{ clickid := "abc123", amount := 1000, createdAt := 3 }] } ∧
    (Scheduler.executeDailyPostback
        { day := 0, fetchOutcome := FetchOutcome.rejected "network timeout" }
        { pending := [{ clickid := "abc123", amount := 1000, createdAt := 3 }] }).2.attempts =
      St.attempts { pending := [{ clickid := "abc123", amount := 1000, createdAt := 3 }] } ++
      [{ clickid := primaryClickid "auto-scheduler"
           [{ clickid := "abc123", amount := 1000, createdAt := 3 }],
         amount := getGlobalCachedTotal
           { pending := [{ clickid := "abc123", amount := 1000, createdAt := 3 }] },
         url := redtrackUrl (primaryClickid "auto-scheduler"
             [{ clickid := "abc123", amount := 1000, createdAt := 3 }])
           (getGlobalCachedTotal
             { pending := [{ clickid := "abc123", amount := 1000, createdAt := 3 }] }),
         success := false, responseBody := "",
         errorMessage := some (fetchErrMsg (FetchOutcome.rejected "network timeout")) }] ∧
    (Scheduler.executeDailyPostback
        { day := 0, fetchOutcome := FetchOutcome.rejected "network timeout" }
        { pending := [{ clickid := "abc123", amount := 1000, createdAt := 3 }] }).1.success =
      some false ∧
    (Scheduler.executeDailyPostback
        { day := 0, fetchOutcome := FetchOutcome.rejected "network timeout" }
        { pending := [{ clickid := "abc123", amount := 1000, createdAt := 3 }] }).1.error =
      some (fetchErrMsg (FetchOutcome.rejected "network timeout")) :=
  scheduler_failed_notification_retains_pending _ _ rfl (by decide) rfl rfl rfl

/-- C2: whenever the external notification succeeds (and reads, clear and the
notification itself do not throw), the scheduler engine clears the entire
pending set, the clearedEntries field equals the number of PendingRecords
present immediately before the clear (the records present at the read plus
any that arrived during the notification), and the result is success true
with the total read at PREPARE, that count, and the representative clickid. -/
theorem scheduler_success_clears_all (cfg : Config) (st : St)
    (h1 : cfg.totalReadFault = none)
    (h2 : 0 < getGlobalCachedTotal st)
    (h3 : cfg.clickidQueryFault = none)
    (h4 : fetchSucceeds cfg.fetchOutcome = true)
    (h5 : cfg.clearFault = none) :
    (Scheduler.executeDailyPostback cfg st).1 =
      { success := some true,
        message := some "Daily postback sent successfully and cache cleared",
        totalAmount := some (getGlobalCachedTotal st),
        clearedEntries := some ((st.pending ++ cfg.arrivals).length),
        clickidUsed := some (primaryClickid "auto-scheduler" st.pending) } ∧
    (Scheduler.executeDailyPostback cfg st).2.pending = [] ∧
    (Scheduler.executeDailyPostback cfg st).2.clears = st.clears + 1 := by
  simp [Scheduler.executeDailyPostback, Scheduler.executeDailyPostbackBody, h1, h3, h4, h5,
    not_le.mpr h2]

/-- Closed witness for the C2 theorem, following the spec scenario: one
pending record abc123, HTTP 200 with body OK, one record arriving during the
notification window. -/
theorem scheduler_success_clears_all_witness :
    (Scheduler.executeDailyPostback
        { day := 0, fetchOutcome := FetchOutcome.response 200 "OK",
          arrivals := [{ clickid := "late1", amount := 700, createdAt := 9 }] }
        { pending := [{ clickid := "abc123", amount := 4250, createdAt := 3 }] }).1 =
      { success := some true,
        message := some "Daily postback sent successfully and cache cleared",
        totalAmount := some (getGlobalCachedTotal
          { pending := [{ clickid := "abc123", amount := 4250, createdAt := 3 }] }),
        clearedEntries := some
          ((([{ clickid := "abc123", amount := 4250, createdAt := 3 }] ++
            [{ clickid := "late1", amount := 700, createdAt := 9 }] :
              List PendingRecord)).length),
        clickidUsed := some (primaryClickid "auto-scheduler"
          [{ clickid := "abc123", amount := 4250, createdAt := 3 }]) } ∧
    (Scheduler.executeDailyPostback
        { day := 0, fetchOutcome := FetchOutcome.response 200 "OK",
          arrivals := [{ clickid := "late1", amount := 700, createdAt := 9 }] }
        { pending := [{ clickid := "abc123", amount := 4250, createdAt := 3 }] }).2.pending =
      [] ∧
    (Scheduler.executeDailyPostback
        { day := 0, fetchOutcome := FetchOutcome.response 200 "OK",
          arrivals := [{ clickid := "late1", amount := 700, createdAt := 9 }] }
        { pending := [{ clickid := "abc123", amount := 4250, createdAt := 3 }] }).2.clears =
      St.clears { pending := [{ clickid := "abc123", amount := 4250, createdAt := 3 }] } + 1 :=
  scheduler_success_clears_all _ _ rfl (by decide) rfl (by decide) rfl

/-- C7: whenever a nested step of the scheduler engine throws (the store
read, the representative-identifier query, or the clear; the audit-log writes
are modelled per the spec as never throwing), the error is caught inside the
engine, a daily_execution_error audit entry is appended, and a structured
failure result with success false, the error message and a message field is
returned. No exception escapes the engine, which is total by construction. -/
theorem scheduler_engine_catches_nested_errors (cfg : Config) (st : St) (e : String)
    (hb : (Scheduler.executeDailyPostbackBody cfg st).1 = Except.error e)
    (h5 : cfg.loggingFault = false) :
    (Scheduler.executeDailyPostback cfg st).1 =
      { success := some false, error := some e,
        message := some "Daily postback execution error" } ∧
    (Scheduler.executeDailyPostback cfg st).2.log =
      (Scheduler.executeDailyPostbackBody cfg st).2.log ++
      [{ clickid := "auto-scheduler", action := "daily_execution_error", day := cfg.day,
         message := "Daily postback execution error: " ++ e }] := by
  unfold Scheduler.executeDailyPostback
  rw [show Scheduler.executeDailyPostbackBody cfg st =
      (Except.error e, (Scheduler.executeDailyPostbackBody cfg st).2) from by
    rw [← hb]]
  simp [logConversion_log_ok _ _ _ h5]

/-- Closed witness for the C7 theorem: the store read throws. -/
theorem scheduler_engine_catches_nested_errors_witness :
    (Scheduler.executeDailyPostback
        { day := 0, totalReadFault := some "db down",
          fetchOutcome := FetchOutcome.response 200 "OK" } {}).1 =
      { success := some false, error := some "db down",
        message := some "Daily postback execution error" } ∧
    (Scheduler.executeDailyPostback
        { day := 0, totalReadFault := some "db down",
          fetchOutcome := FetchOutcome.response 200 "OK" } {}).2.log =
      (Scheduler.executeDailyPostbackBody
        { day := 0, totalReadFault := some "db down",
          fetchOutcome := FetchOutcome.response 200 "OK" } {}).2.log ++
      [{ clickid := "auto-scheduler", action := "daily_execution_error", day := 0,
         message := "Daily postback execution error: " ++ "db down" }] :=
  scheduler_engine_catches_nested_errors _ _ _ rfl rfl

/-- C8: whenever the notification succeeds but the internal store writes of
logPostback and logConversion fail (the logging layer swallows the failure
per the spec contract of recordAttempt), the settlement outcome is not
masked: the engine still clears the pending set and still reports success. -/
theorem scheduler_logging_failure_does_not_mask_success (cfg : Config) (st : St)
    (h1 : cfg.totalReadFault = none)
    (h2 : 0 < getGlobalCachedTotal st)
    (h3 : cfg.clickidQueryFault = none)
    (h4 : fetchSucceeds cfg.fetchOutcome = true)
    (h5 : cfg.clearFault = none)
    (_h6 : cfg.loggingFault = true) :
    (Scheduler.executeDailyPostback cfg st).1.success = some true ∧
    (Scheduler.executeDailyPostback cfg st).1.message =
      some "Daily postback sent successfully and cache cleared" ∧
    (Scheduler.executeDailyPostback cfg st).2.pending = [] ∧
    (Scheduler.executeDailyPostback cfg st).2.clears = st.clears + 1 := by
  simp [Scheduler.executeDailyPostback, Scheduler.executeDailyPostbackBody, h1, h3, h4, h5,
    not_le.mpr h2]

/-- Closed witness for the C8 theorem: logging store failing, fetch ok. -/
theorem scheduler_logging_failure_does_not_mask_success_witness :
    (Scheduler.executeDailyPostback
        { day := 0, loggingFault := true, fetchOutcome := FetchOutcome.response 200 "OK" }
        { pending := [{ clickid := "abc123", amount := 4250, createdAt := 3 }] }).1.success =
      some true ∧
    (Scheduler.executeDailyPostback
        { day := 0, loggingFault := true, fetchOutcome := FetchOutcome.response 200 "OK" }
        { pending := [{ clickid := "abc123", amount := 4250, createdAt := 3 }] }).1.message =
      some "Daily postback sent successfully and cache cleared" ∧
    (Scheduler.executeDailyPostback
        { day := 0, loggingFault := true, fetchOutcome := FetchOutcome.response 200 "OK" }
        { pending := [{ clickid := "abc123", amount := 4250, createdAt := 3 }] }).2.pending =
      [] ∧
    (Scheduler.executeDailyPostback
        { day := 0, loggingFault := true, fetchOutcome := FetchOutcome.response 200 "OK" }
        { pending := [{ clickid := "abc123", amount := 4250, createdAt := 3 }] }).2.clears =
      St.clears { pending := [{ clickid := "abc123", amount := 4250, createdAt := 3 }] } + 1 :=
  scheduler_logging_failure_does_not_mask_success _ _ rfl (by decide) rfl (by decide) rfl rfl

/-- C6: whenever the dedup count query throws (store unavailable), the
persisted duplicate-run check returns false, allowing the run, instead of
propagating the error. -/
theorem cron_dedup_check_fails_open (cfg : Config) (st : St)
    (h : cfg.dedupQueryFault = true) :
    Cron.checkIfAlreadyRanToday cfg st = false := by
  simp [Cron.checkIfAlreadyRanToday, h]

/-- Closed witness for the C6 theorem: the query fails over a log that would
otherwise match, and the check still answers false. -/
theorem cron_dedup_check_fails_open_witness :
    Cron.checkIfAlreadyRanToday
      { day := 0, dedupQueryFault := true, fetchOutcome := FetchOutcome.response 200 "OK" }
      { log := [{ clickid := "vercel-cron", action := "cron_postback_success", day := 0,
                  message := "ok" }] } = false :=
  cron_dedup_check_fails_open _ _ rfl

/-- The action tags the three trigger paths write on a confirmed success
(postback success and cache cleared, per path), collected from the sources. -/
def confirmedSuccessActions : List String :=
  ["daily_postback_success", "daily_cache_cleared",
   "cron_postback_success", "cron_cache_cleared",
   "manual_postback_success", "manual_cache_cleared",
   "force_postback_success", "force_cache_cleared"]

/-- C5 counterexample: an audit log holding one confirmed-success entry
written today by the manual admin path does not make checkIfAlreadyRanToday
return true, because the check only looks for the two cron action tags. -/
theorem cron_dedup_check_misses_other_paths :
    ((∃ en ∈ ([⟨"manual-admin", "manual_cache_cleared", 0, "cleared", none, none⟩] :
          List AuditEntry),
        en.action ∈ confirmedSuccessActions ∧ en.day = 0) ∧
      Cron.checkIfAlreadyRanToday
        { day := 0, fetchOutcome := FetchOutcome.response 200 "OK" }
        { log := [⟨"manual-admin", "manual_cache_cleared", 0, "cleared", none, none⟩] } =
        false) := by
  decide

/-- C5 amended: the persisted duplicate-run check, when its query succeeds,
returns true exactly when the audit log holds an entry of today tagged
cron_postback_success or cron_cache_cleared; confirmed-success entries of the
timer, manual and forced paths carry other tags and never satisfy it. -/
theorem cron_dedup_check_detects_only_cron_tags (cfg : Config) (st : St)
    (h : cfg.dedupQueryFault = false) :
    (Cron.checkIfAlreadyRanToday cfg st = true ↔
      ∃ en ∈ st.log,
        (en.action = "cron_postback_success" ∨ en.action = "cron_cache_cleared") ∧
        en.day = cfg.day) := by
  simp [Cron.checkIfAlreadyRanToday, Cron.cronSuccessCount, h, List.countP_pos_iff]

/-- Closed witness for the amended C5 theorem: a cron_cache_cleared entry of
today makes the check answer true. -/
theorem cron_dedup_check_detects_only_cron_tags_witness :
    Cron.checkIfAlreadyRanToday
      { day := 4, fetchOutcome := FetchOutcome.response 200 "OK" }
      { log := [{ clickid := "vercel-cron", action := "cron_cache_cleared", day := 4,
                  message := "cleared" }] } = true :=
  (cron_dedup_check_detects_only_cron_tags _ _ rfl).mpr (by decide)

/-- Every normal completion of the scheduler engine body carries a success
boolean and a message. -/
theorem scheduler_body_result_structured (cfg : Config) (st : St) (r : RunResult)
    (h : (Scheduler.executeDailyPostbackBody cfg st).1 = Except.ok r) :
    r.success.isSome ∧ r.message.isSome := by
  unfold Scheduler.executeDailyPostbackBody at h
  all_goals try split at h
  all_goals try split at h
  all_goals try simp_all
  all_goals try split at h
  all_goals try split at h
  all_goals try split at h
  all_goals try simp_all
  all_goals subst h
  all_goals simp

/-- Every scheduler engine result carries a success boolean and a message. -/
theorem scheduler_result_structured (cfg : Config) (st : St) :
    (Scheduler.executeDailyPostback cfg st).1.success.isSome ∧
    (Scheduler.executeDailyPostback cfg st).1.message.isSome := by
  unfold Scheduler.executeDailyPostback
  rcases hb : Scheduler.executeDailyPostbackBody cfg st with ⟨res, st1⟩
  cases res with
  | ok r =>
    have hr : (Scheduler.executeDailyPostbackBody cfg st).1 = Except.ok r := by rw [hb]
    simpa using scheduler_body_result_structured cfg st r hr
  | error e => simp

/-- Every normal completion of the cron engine body carries a success boolean
and a message. -/
theorem cron_body_result_structured (cfg : Config) (st : St) (r : RunResult)
    (h : (Cron.executeDailyPostbackBody cfg st).1 = Except.ok r) :
    r.success.isSome ∧ r.message.isSome := by
  unfold Cron.executeDailyPostbackBody at h
  all_goals try split at h
  all_goals try split at h
  all_goals try split at h
  all_goals try simp_all
  all_goals try split at h
  all_goals try split at h
  all_goals try split at h
  all_goals try simp_all
  all_goals subst h
  all_goals simp

/-- Every cron engine result carries a success boolean and a message. -/
theorem cron_result_structured (cfg : Config) (st : St) :
    (Cron.executeDailyPostback cfg st).1.success.isSome ∧
    (Cron.executeDailyPostback cfg st).1.message.isSome := by
  unfold Cron.executeDailyPostback
  rcases hb : Cron.executeDailyPostbackBody cfg st with ⟨res, st1⟩
  cases res with
  | ok r =>
    have hr : (Cron.executeDailyPostbackBody cfg st).1 = Except.ok r := by rw [hb]
    simpa using cron_body_result_structured cfg st r hr
  | error e => simp

/-- Every normal completion of the manual admin engine body carries a success
boolean and a message. -/
theorem manual_body_result_structured (cfg : Config) (st : St) (r : RunResult)
    (h : (Manual.executeDailyPostbackBody cfg st).1 = Except.ok r) :
    r.success.isSome ∧ r.message.isSome := by
  unfold Manual.executeDailyPostbackBody at h
  all_goals try split at h
  all_goals try split at h
  all_goals try simp_all
  all_goals try split at h
  all_goals try split at h
  all_goals try split at h
  all_goals try simp_all
  all_goals subst h
  all_goals simp

/-- Every manual admin engine result carries a success boolean and a message. -/
theorem manual_result_structured (cfg : Config) (st : St) :
    (Manual.executeDailyPostback cfg st).1.success.isSome ∧
    (Manual.executeDailyPostback cfg st).1.message.isSome := by
  unfold Manual.executeDailyPostback
  rcases hb : Manual.executeDailyPostbackBody cfg st with ⟨res, st1⟩
  cases res with
  | ok r =>
    have hr : (Manual.executeDailyPostbackBody cfg st).1 = Except.ok r := by rw [hb]
    simpa using manual_body_result_structured cfg st r hr
  | error e => simp

/-- Every normal completion of the forced admin engine body carries a success
boolean and a message. -/
theorem force_body_result_structured (cfg : Config) (st : St) (r : RunResult)
    (h : (Force.executeForcedDailyPostbackBody cfg st).1 = Except.ok r) :
    r.success.isSome ∧ r.message.isSome := by
  unfold Force.executeForcedDailyPostbackBody at h
  all_goals try split at h
  all_goals try split at h
  all_goals try simp_all
  all_goals try split at h
  all_goals try split at h
  all_goals try split at h
  all_goals try simp_all
  all_goals subst h
  all_goals simp

/-- Every forced admin engine result carries a success boolean and a message. -/
theorem force_result_structured (cfg : Config) (st : St) :
    (Force.executeForcedDailyPostback cfg st).1.success.isSome ∧
    (Force.executeForcedDailyPostback cfg st).1.message.isSome := by
  unfold Force.executeForcedDailyPostback
  rcases hb : Force.executeForcedDailyPostbackBody cfg st with ⟨res, st1⟩
  cases res with
  | ok r =>
    have hr : (Force.executeForcedDailyPostbackBody cfg st).1 = Except.ok r := by rw [hb]
    simpa using force_body_result_structured cfg st r hr
  | error e => simp

/-- C9 counterexample: a timer-path invocation outside the window returns an
object with skipped and reason only; it lacks both the success boolean and
the message field the claim requires of every invocation. -/
theorem timer_skip_result_lacks_success_and_message :
    ((Scheduler.checkAndRunDailyPostback ⟨"Tue Jan 09 2024", 10, 30⟩
        { day := 0, fetchOutcome := FetchOutcome.response 200 "OK" } none {}).1.skipped =
      some true ∧
     (Scheduler.checkAndRunDailyPostback ⟨"Tue Jan 09 2024", 10, 30⟩
        { day := 0, fetchOutcome := FetchOutcome.response 200 "OK" } none {}).1.success =
      none ∧
     (Scheduler.checkAndRunDailyPostback ⟨"Tue Jan 09 2024", 10, 30⟩
        { day := 0, fetchOutcome := FetchOutcome.response 200 "OK" } none {}).1.message =
      none) := by
  decide

/-- C9 amended: every engine invocation on every trigger path (the scheduler
engine of the timer path, the cron engine, the manual admin engine and the
forced admin engine, covering success, no-op, duplicate-skip and failure
outcomes) returns a result with a success boolean and a message; the timer
trigger wrapper however either forwards such an engine result or returns a
skip object carrying skipped true and a reason but neither success nor
message. -/
theorem trigger_results_structured_or_skip (ti : Scheduler.TimerInput) (cfg : Config)
    (marker : Option String) (st : St) :
    (((Scheduler.checkAndRunDailyPostback ti cfg marker st).1.success.isSome ∧
      (Scheduler.checkAndRunDailyPostback ti cfg marker st).1.message.isSome) ∨
     ((Scheduler.checkAndRunDailyPostback ti cfg marker st).1.skipped = some true ∧
      (Scheduler.checkAndRunDailyPostback ti cfg marker st).1.reason.isSome ∧
      (Scheduler.checkAndRunDailyPostback ti cfg marker st).1.success = none ∧
      (Scheduler.checkAndRunDailyPostback ti cfg marker st).1.message = none)) ∧
    ((Scheduler.executeDailyPostback cfg st).1.success.isSome ∧
     (Scheduler.executeDailyPostback cfg st).1.message.isSome) ∧
    ((Cron.executeDailyPostback cfg st).1.success.isSome ∧
     (Cron.executeDailyPostback cfg st).1.message.isSome) ∧
    ((Manual.executeDailyPostback cfg st).1.success.isSome ∧
     (Manual.executeDailyPostback cfg st).1.message.isSome) ∧
    ((Force.executeForcedDailyPostback cfg st).1.success.isSome ∧
     (Force.executeForcedDailyPostback cfg st).1.message.isSome) := by
  refine ⟨?_, scheduler_result_structured cfg st, cron_result_structured cfg st,
    manual_result_structured cfg st, force_result_structured cfg st⟩
  by_cases h1 : marker = some ti.dateString
  · right; simp [Scheduler.checkAndRunDailyPostback, h1]
  · by_cases h2 : ti.hour = 23 ∧ ti.minute = 59
    · left
      have hgoal : (Scheduler.checkAndRunDailyPostback ti cfg marker st).1 =
          (Scheduler.executeDailyPostback cfg (logConversion cfg st
            { clickid := "auto-scheduler", action := "daily_auto_trigger", day := cfg.day,
              message := "Auto-triggered daily postback at " ++ ti.dateString ++
                " NY time" })).1 := by
        simp [Scheduler.checkAndRunDailyPostback, h1, h2]
      rw [hgoal]
      exact scheduler_result_structured _ _
    · right; simp [Scheduler.checkAndRunDailyPostback, h1, h2]

/-- C10: the timer path assigns the in-process daily marker before the
settlement executes. A first timer invocation that passes the marker and
window checks sets the marker to the date string of the tick, and a second
invocation on the same date then returns skipped true with reason Already ran
today, leaving marker and store untouched, whatever the outcome (including
failure) of the first settlement. -/
theorem timer_marker_set_before_execution (ti1 ti2 : Scheduler.TimerInput)
    (cfg1 cfg2 : Config) (marker : Option String) (st : St)
    (h1 : marker ≠ some ti1.dateString)
    (h2 : ti1.hour = 23) (h3 : ti1.minute = 59)
    (h4 : ti2.dateString = ti1.dateString) :
    (Scheduler.checkAndRunDailyPostback ti1 cfg1 marker st).2.1 = some ti1.dateString ∧
    (Scheduler.checkAndRunDailyPostback ti2 cfg2
        (Scheduler.checkAndRunDailyPostback ti1 cfg1 marker st).2.1
        (Scheduler.checkAndRunDailyPostback ti1 cfg1 marker st).2.2).1 =
      { skipped := some true, reason := some "Already ran today" } ∧
    (Scheduler.checkAndRunDailyPostback ti2 cfg2
        (Scheduler.checkAndRunDailyPostback ti1 cfg1 marker st).2.1
        (Scheduler.checkAndRunDailyPostback ti1 cfg1 marker st).2.2).2.1 =
      (Scheduler.checkAndRunDailyPostback ti1 cfg1 marker st).2.1 ∧
    (Scheduler.checkAndRunDailyPostback ti2 cfg2
        (Scheduler.checkAndRunDailyPostback ti1 cfg1 marker st).2.1
        (Scheduler.checkAndRunDailyPostback ti1 cfg1 marker st).2.2).2.2 =
      (Scheduler.checkAndRunDailyPostback ti1 cfg1 marker st).2.2 := by
  have hm : (Scheduler.checkAndRunDailyPostback ti1 cfg1 marker st).2.1 =
      some ti1.dateString := by
    simp [Scheduler.checkAndRunDailyPostback, h1, h2, h3]
  refine ⟨hm, ?_, ?_, ?_⟩ <;>
    (rw [hm]; simp [Scheduler.checkAndRunDailyPostback, h4])

/-- Closed witness for the C10 theorem: the first settlement fails (rejected
fetch), the same-day second tick is still skipped with the store untouched. -/
theorem timer_marker_set_before_execution_witness :
    (Scheduler.checkAndRunDailyPostback ⟨"Tue Jan 09 2024", 23, 59⟩
        { day := 0, fetchOutcome := FetchOutcome.rejected "network timeout" }
        none { pending := [⟨"abc123", 1000, 3⟩] }).2.1 = some "Tue Jan 09 2024" ∧
    (Scheduler.checkAndRunDailyPostback ⟨"Tue Jan 09 2024", 23, 59⟩
        { day := 0, fetchOutcome := FetchOutcome.response 200 "OK" }
        (Scheduler.checkAndRunDailyPostback ⟨"Tue Jan 09 2024", 23, 59⟩
          { day := 0, fetchOutcome := FetchOutcome.rejected "network timeout" }
          none { pending := [⟨"abc123", 1000, 3⟩] }).2.1
        (Scheduler.checkAndRunDailyPostback ⟨"Tue Jan 09 2024", 23, 59⟩
          { day := 0, fetchOutcome := FetchOutcome.rejected "network timeout" }
          none { pending := [⟨"abc123", 1000, 3⟩] }).2.2).1 =
      { skipped := some true, reason := some "Already ran today" } ∧
    (Scheduler.checkAndRunDailyPostback ⟨"Tue Jan 09 2024", 23, 59⟩
        { day := 0, fetchOutcome := FetchOutcome.response 200 "OK" }
        (Scheduler.checkAndRunDailyPostback ⟨"Tue Jan 09 2024", 23, 59⟩
          { day := 0, fetchOutcome := FetchOutcome.rejected "network timeout" }
          none { pending := [⟨"abc123", 1000, 3⟩] }).2.1
        (Scheduler.checkAndRunDailyPostback ⟨"Tue Jan 09 2024", 23, 59⟩
          { day := 0, fetchOutcome := FetchOutcome.rejected "network timeout" }
          none { pending := [⟨"abc123", 1000, 3⟩] }).2.2).2.1 =
      (Scheduler.checkAndRunDailyPostback ⟨"Tue Jan 09 2024", 23, 59⟩
        { day := 0, fetchOutcome := FetchOutcome.rejected "network timeout" }
        none { pending := [⟨"abc123", 1000, 3⟩] }).2.1 ∧
    (Scheduler.checkAndRunDailyPostback ⟨"Tue Jan 09 2024", 23, 59⟩
        { day := 0, fetchOutcome := FetchOutcome.response 200 "OK" }
        (Scheduler.checkAndRunDailyPostback ⟨"Tue Jan 09 2024", 23, 59⟩
          { day := 0, fetchOutcome := FetchOutcome.rejected "network timeout" }
          none { pending := [⟨"abc123", 1000, 3⟩] }).2.1
        (Scheduler.checkAndRunDailyPostback ⟨"Tue Jan 09 2024", 23, 59⟩
          { day := 0, fetchOutcome := FetchOutcome.rejected "network timeout" }
          none { pending := [⟨"abc123", 1000, 3⟩] }).2.2).2.2 =
      (Scheduler.checkAndRunDailyPostback ⟨"Tue Jan 09 2024", 23, 59⟩
        { day := 0, fetchOutcome := FetchOutcome.rejected "network timeout" }
        none { pending := [⟨"abc123", 1000, 3⟩] }).2.2 :=
  timer_marker_set_before_execution _ _ _ _ _ _ (by decide) rfl rfl rfl

/-- When the persisted check reports a run already happened today, the cron
engine only logs a duplicate-prevented entry: no send, no clear, and the
skip result is returned. -/
theorem cron_dedup_skip (cfg : Config) (st : St)
    (h : Cron.checkIfAlreadyRanToday cfg st = true) :
    (Cron.executeDailyPostback cfg st).2.okSends = st.okSends ∧
    (Cron.executeDailyPostback cfg st).2.clears = st.clears ∧
    (Cron.executeDailyPostback cfg st).2.sends = st.sends ∧
    (Cron.executeDailyPostback cfg st).1 =
      { success := some true,
        message := some "Already processed today - duplicate prevented",
        skipped := some true } := by
  simp [Cron.executeDailyPostback, Cron.executeDailyPostbackBody, h]

/-- Case analysis of one cron invocation: either it never reaches a
successful notification (counters untouched), or it performs exactly one
successful notification, at most one clear, and (when the logging store is
healthy) leaves a cron success tag of its day in the audit log. -/
theorem cron_run_cases (cfg : Config) (st : St) :
    ((Cron.executeDailyPostback cfg st).2.okSends = st.okSends ∧
     (Cron.executeDailyPostback cfg st).2.clears = st.clears) ∨
    ((Cron.executeDailyPostback cfg st).2.okSends = st.okSends + 1 ∧
     (Cron.executeDailyPostback cfg st).2.clears ≤ st.clears + 1 ∧
     (cfg.loggingFault = false →
       0 < Cron.cronSuccessCount (Cron.executeDailyPostback cfg st).2.log cfg.day)) := by
  cases hd : Cron.checkIfAlreadyRanToday cfg st with
  | true =>
    left
    simp [Cron.executeDailyPostback, Cron.executeDailyPostbackBody, hd]
  | false =>
    rcases hr : cfg.totalReadFault with _ | e
    · by_cases ht : getGlobalCachedTotal st ≤ 0
      · left
        simp [Cron.executeDailyPostback, Cron.executeDailyPostbackBody, hd, hr, ht]
      · rcases hq : cfg.clickidQueryFault with _ | e
        · by_cases hf : fetchSucceeds cfg.fetchOutcome = true
          · right
            rcases hc : cfg.clearFault with _ | e
            · refine ⟨?_, ?_, ?_⟩
              · simp [Cron.executeDailyPostback, Cron.executeDailyPostbackBody,
                  hd, hr, ht, hq, hf, hc]
              · simp [Cron.executeDailyPostback, Cron.executeDailyPostbackBody,
                  hd, hr, ht, hq, hf, hc]
              · intro hl
                simp [Cron.executeDailyPostback, Cron.executeDailyPostbackBody,
                  hd, hr, ht, hq, hf, hc, logConversion, logPostback, hl,
                  Cron.cronSuccessCount, List.countP_append]
            · refine ⟨?_, ?_, ?_⟩
              · simp [Cron.executeDailyPostback, Cron.executeDailyPostbackBody,
                  hd, hr, ht, hq, hf, hc]
              · simp [Cron.executeDailyPostback, Cron.executeDailyPostbackBody,
                  hd, hr, ht, hq, hf, hc]
              · intro hl
                simp [Cron.executeDailyPostback, Cron.executeDailyPostbackBody,
                  hd, hr, ht, hq, hf, hc, logConversion, logPostback, hl,
                  Cron.cronSuccessCount, List.countP_append]
          · left
            simp [Cron.executeDailyPostback, Cron.executeDailyPostbackBody,
              hd, hr, ht, hq, hf]
        · left
          simp [Cron.executeDailyPostback, Cron.executeDailyPostbackBody, hd, hr, ht, hq]
    · left
      simp [Cron.executeDailyPostback, Cron.executeDailyPostbackBody, hd, hr]

/-- C3 counterexample: two sequential same-day cron invocations with the
authoritative dedup source available and seeing every written entry; the
first notification fails (rejected fetch), the second invocation is then not
deduplicated and sends again, so two outbound notifications occur, not at
most one as the claim states. -/
theorem cron_two_runs_send_twice_after_failure :
    ¬ ((Cron.executeDailyPostback
        { day := 0, fetchOutcome := FetchOutcome.response 200 "OK" }
        (Cron.executeDailyPostback
          { day := 0, fetchOutcome := FetchOutcome.rejected "network timeout" }
          { pending := [⟨"abc123", 1000, 3⟩] }).2).2.sends.length ≤ 1) ∧
    (Cron.executeDailyPostback
        { day := 0, fetchOutcome := FetchOutcome.response 200 "OK" }
        (Cron.executeDailyPostback
          { day := 0, fetchOutcome := FetchOutcome.rejected "network timeout" }
          { pending := [⟨"abc123", 1000, 3⟩] }).2).2.sends.length = 2 := by
  decide

/-- C3 amended: across two sequential same-day cron invocations with the
authoritative dedup source available (no query fault in either, and the
entries of the first invocation actually written), at most one successful
notification and at most one clear occur; after a failed first notification
the second invocation may legitimately send again, so outbound attempts are
not bounded by one. -/
theorem cron_two_runs_at_most_one_settlement (cfg1 cfg2 : Config) (st0 : St)
    (hday : cfg2.day = cfg1.day)
    (hd2 : cfg2.dedupQueryFault = false)
    (hl1 : cfg1.loggingFault = false) :
    (Cron.executeDailyPostback cfg2 (Cron.executeDailyPostback cfg1 st0).2).2.okSends ≤
      st0.okSends + 1 ∧
    (Cron.executeDailyPostback cfg2 (Cron.executeDailyPostback cfg1 st0).2).2.clears ≤
      st0.clears + 1 := by
  rcases cron_run_cases cfg1 st0 with ⟨e1, e2⟩ | ⟨e1, e2, e3⟩
  · rcases cron_run_cases cfg2 (Cron.executeDailyPostback cfg1 st0).2 with
      ⟨f1, f2⟩ | ⟨f1, f2, _⟩ <;> omega
  · have hpos := e3 hl1
    have hcheck : Cron.checkIfAlreadyRanToday cfg2 (Cron.executeDailyPostback cfg1 st0).2 =
        true := by
      simp [Cron.checkIfAlreadyRanToday, hd2, hday]
      omega
    obtain ⟨f1, f2, _, _⟩ := cron_dedup_skip cfg2 (Cron.executeDailyPostback cfg1 st0).2 hcheck
    omega

/-- Closed witness for the amended C3 theorem: first run succeeds, second is
deduplicated; one successful send and one clear in total. -/
theorem cron_two_runs_at_most_one_settlement_witness :
    (Cron.executeDailyPostback
        { day := 0, fetchOutcome := FetchOutcome.response 200 "OK" }
        (Cron.executeDailyPostback
          { day := 0, fetchOutcome := FetchOutcome.response 200 "OK" }
          { pending := [⟨"abc123", 1000, 3⟩] }).2).2.okSends ≤
      St.okSends { pending := [⟨"abc123", 1000, 3⟩] } + 1 ∧
    (Cron.executeDailyPostback
        { day := 0, fetchOutcome := FetchOutcome.response 200 "OK" }
        (Cron.executeDailyPostback
          { day := 0, fetchOutcome := FetchOutcome.response 200 "OK" }
          { pending := [⟨"abc123", 1000, 3⟩] }).2).2.clears ≤
      St.clears { pending := [⟨"abc123", 1000, 3⟩] } + 1 :=
  cron_two_runs_at_most_one_settlement _ _ _ rfl rfl rfl

end Postback
